import Mathlib

/-!
Verification of the Apollo planning `ScenarioManager`
(modules/planning/scenarios/scenario_manager.cc).

The C++ code is shallowly embedded: doubles become rationals, the
`PlanningContext` singleton becomes an explicitly threaded `ScenarioInfo`
record, `std::unique_ptr<Scenario>` becomes `Option Scenario` (with `none`
standing for a null pointer), and a dereference of a null pointer or a
failed `CHECK` makes the embedded operation return `none` at the
`Option`-valued entry points.  The per-variant `Scenario::IsTransferable`
implementations and the status set by `Scenario::Init` live outside this
translation unit, so they are oracles carried in the environment `Env`
together with the gflags and the configured thresholds.
-/

/-- `ScenarioConfig::ScenarioType` (the members this translation unit uses). -/
inductive ScenarioType where
  | LANE_FOLLOW
  | CHANGE_LANE
  | SIDE_PASS
  | APPROACH
  | STOP_SIGN_PROTECTED
  | STOP_SIGN_UNPROTECTED
  | TRAFFIC_LIGHT_PROTECTED
  | TRAFFIC_LIGHT_UNPROTECTED_LEFT_TURN
  | TRAFFIC_LIGHT_UNPROTECTED_RIGHT_TURN
deriving DecidableEq, Repr

/-- `Scenario::ScenarioStatus`. -/
inductive ScenarioStatus where
  | STATUS_UNKNOWN
  | STATUS_PROCESSING
  | STATUS_DONE
deriving DecidableEq, Repr

/-- `hdmap::Lane` turn types used by `GetPathTurnType`. -/
inductive TurnType where
  | NO_TURN
  | LEFT_TURN
  | RIGHT_TURN
  | U_TURN
deriving DecidableEq, Repr

/-- `ReferenceLineInfo` overlap categories used by the manager. -/
inductive OverlapKind where
  | CROSSWALK
  | OBSTACLE
  | SIGNAL
  | STOP_SIGN
deriving DecidableEq, Repr

/-- `apollo::perception::TrafficLight` colors. -/
inductive TrafficLightColor where
  | UNKNOWN
  | RED
  | YELLOW
  | GREEN
  | BLACK
deriving DecidableEq, Repr

/-- `hdmap::PathOverlap`. -/
structure PathOverlap where
  object_id : String
  start_s : ℚ
  end_s : ℚ
deriving DecidableEq, Repr

instance : Inhabited PathOverlap := ⟨⟨"", 0, 0⟩⟩

/-- The slice of `ReferenceLineInfo` the manager reads: the ADC front edge
`AdcSlBoundary().end_s()`, `GetPathTurnType()`, `FirstEncounteredOverlaps()`,
and `reference_line().map_path().stop_sign_overlaps()`. -/
structure ReferenceLineInfo where
  adc_front_edge_s : ℚ
  path_turn_type : TurnType
  first_encountered_overlaps : List (OverlapKind × PathOverlap)
  stop_sign_overlaps : List PathOverlap
deriving Repr

instance : Inhabited ReferenceLineInfo := ⟨⟨0, .NO_TURN, [], []⟩⟩

/-- One reported light of a `TrafficLightDetection` message. -/
structure TrafficLightProto where
  id : String
  color : TrafficLightColor
deriving DecidableEq, Repr

/-- The `TrafficLightDetection` message: header timestamp plus lights. -/
structure TrafficLightDetectionMsg where
  timestamp_sec : ℚ
  lights : List TrafficLightProto
deriving Repr

/-- The slice of `Frame` the manager reads. `traffic_light` is
`local_view().traffic_light`, a nullable message pointer. -/
structure Frame where
  reference_line_info : List ReferenceLineInfo
  traffic_light : Option TrafficLightDetectionMsg
deriving Repr

/-- A `Scenario` as seen by the manager: its immutable type and its status. -/
structure Scenario where
  scenario_type : ScenarioType
  status : ScenarioStatus
deriving DecidableEq, Repr

/-- `PlanningContext::GetScenarioInfo()`: the process-wide mutable record. -/
structure ScenarioInfo where
  current_stop_sign_overlap : PathOverlap
  stop_done_overlap_ids : List String
  traffic_lights : List (String × TrafficLightColor)
  current_traffic_light_overlaps : List PathOverlap
deriving Repr

/-- Ambient configuration: gflags, configured thresholds, the clock, and the
oracles for the scenario implementations that live outside this file
(`IsTransferable`, called as `candidate.IsTransferable(current, frame)`, and
the status a freshly constructed scenario has after its `Init()`). -/
structure Env where
  enable_scenario_dispatcher : Bool
  enable_scenario_side_pass : Bool
  enable_scenario_stop_sign : Bool
  enable_scenario_traffic_light : Bool
  start_stop_sign_scenario_distance : ℚ
  max_valid_stop_distance : ℚ
  signal_expire_time_sec : ℚ
  clock_now : ℚ
  is_transferable : Scenario → Scenario → Frame → Bool
  created_status : ScenarioType → ScenarioStatus

/-- `ScenarioManager`'s own state, with the planning context threaded in. -/
structure ManagerState where
  default_scenario_type : ScenarioType
  supported_scenarios : List ScenarioType
  current_scenario : Option Scenario
  scenario_info : ScenarioInfo

/-- `std::map` insert-or-assign semantics of `traffic_lights[id] = light`. -/
def mapInsert (m : List (String × TrafficLightColor)) (k : String)
    (v : TrafficLightColor) : List (String × TrafficLightColor) :=
  match m with
  | [] => [(k, v)]
  | (k', v') :: rest =>
      if k' = k then (k', v) :: rest else (k', v') :: mapInsert rest k v

/-- `ScenarioManager::ReadTrafficLight`: clear the shared map; bail out if the
detection message is null; compute `delay = timestamp_sec - Clock::NowInSeconds()`
and bail out if `delay > signal_expire_time_sec_`; otherwise store every
reported light under its id. -/
def readTrafficLight (env : Env) (frame : Frame) (info : ScenarioInfo) :
    ScenarioInfo :=
  let info := { info with traffic_lights := [] }
  match frame.traffic_light with
  | none => info
  | some det =>
      let delay := det.timestamp_sec - env.clock_now
      if delay > env.signal_expire_time_sec then info
      else
        { info with
          traffic_lights :=
            det.lights.foldl (fun m l => mapInsert m l.id l.color) [] }

/-- `ScenarioManager::Observe` (just reads the traffic light). -/
def observe (env : Env) (frame : Frame) (info : ScenarioInfo) : ScenarioInfo :=
  readTrafficLight env frame info

/-- `ScenarioManager::CreateScenario`: the switch constructs the six wired-up
variants (each then gets its `Init()` call, reflected by `created_status`);
every other type falls to `default` and returns a null pointer. -/
def createScenario (env : Env) (t : ScenarioType) : Option Scenario :=
  match t with
  | .LANE_FOLLOW => some ⟨t, env.created_status t⟩
  | .SIDE_PASS => some ⟨t, env.created_status t⟩
  | .STOP_SIGN_UNPROTECTED => some ⟨t, env.created_status t⟩
  | .TRAFFIC_LIGHT_PROTECTED => some ⟨t, env.created_status t⟩
  | .TRAFFIC_LIGHT_UNPROTECTED_LEFT_TURN => some ⟨t, env.created_status t⟩
  | .TRAFFIC_LIGHT_UNPROTECTED_RIGHT_TURN => some ⟨t, env.created_status t⟩
  | _ => none

/-- The six types `RegisterScenarios` loads a configuration for, which are
exactly the types `CreateScenario`'s switch can construct. -/
def registeredTypes : List ScenarioType :=
  [.LANE_FOLLOW, .SIDE_PASS, .STOP_SIGN_UNPROTECTED,
   .TRAFFIC_LIGHT_PROTECTED, .TRAFFIC_LIGHT_UNPROTECTED_LEFT_TURN,
   .TRAFFIC_LIGHT_UNPROTECTED_RIGHT_TURN]

/-- `ScenarioManager::Init`: register configs, default to LANE_FOLLOW, store the
supported set, construct the initial scenario. -/
def initManager (env : Env) (supported : List ScenarioType)
    (info : ScenarioInfo) : ManagerState :=
  { default_scenario_type := .LANE_FOLLOW
    supported_scenarios := supported
    current_scenario := createScenario env .LANE_FOLLOW
    scenario_info := info }

/-- `ScenarioManager::SelectChangeLaneScenario`: both branches are
LANE_FOLLOW today (multi-route arbitration is a stub). -/
def selectChangeLaneScenario (frame : Frame) : ScenarioType :=
  if 1 < frame.reference_line_info.length then ScenarioType.LANE_FOLLOW
  else ScenarioType.LANE_FOLLOW

/-- `ScenarioManager::SelectStopSignScenario`. -/
def selectStopSignScenario (env : Env) (cur : Scenario) (frame : Frame)
    (first_encountered_stop_sign_overlap : PathOverlap) : ScenarioType :=
  let ref := frame.reference_line_info.headI
  let adc_distance_to_stop_sign :=
    first_encountered_stop_sign_overlap.start_s - ref.adc_front_edge_s
  let stop_sign : Bool :=
    decide (0 < adc_distance_to_stop_sign) &&
      decide (adc_distance_to_stop_sign ≤ env.start_stop_sign_scenario_distance)
  let stop_sign_all_way : Bool := false
  match cur.scenario_type with
  | .LANE_FOLLOW | .CHANGE_LANE | .SIDE_PASS | .APPROACH =>
      if stop_sign then
        if stop_sign_all_way then ScenarioType.STOP_SIGN_PROTECTED
        else ScenarioType.STOP_SIGN_UNPROTECTED
      else cur.scenario_type
  | .STOP_SIGN_PROTECTED | .STOP_SIGN_UNPROTECTED =>
      if cur.status = .STATUS_DONE then ScenarioType.LANE_FOLLOW
      else cur.scenario_type
  | _ => cur.scenario_type

/-- The loop body of `SelectTrafficLightScenario` over
`current_traffic_light_overlaps` (the switch sits inside the loop; `break`
in the non-returning switch arms continues the loop). -/
def trafficLightLoop (env : Env) (cur : Scenario) (ref : ReferenceLineInfo) :
    List PathOverlap → ScenarioType
  | [] => cur.scenario_type
  | ov :: rest =>
      let adc_distance_to_stop_line := ov.start_s - ref.adc_front_edge_s
      match cur.scenario_type with
      | .LANE_FOLLOW | .CHANGE_LANE | .SIDE_PASS | .APPROACH =>
          if adc_distance_to_stop_line ≤ env.max_valid_stop_distance then
            if ref.path_turn_type = .RIGHT_TURN then
              ScenarioType.TRAFFIC_LIGHT_UNPROTECTED_RIGHT_TURN
            else if ref.path_turn_type = .LEFT_TURN then
              ScenarioType.TRAFFIC_LIGHT_PROTECTED
            else ScenarioType.TRAFFIC_LIGHT_PROTECTED
          else trafficLightLoop env cur ref rest
      | .STOP_SIGN_PROTECTED | .STOP_SIGN_UNPROTECTED =>
          trafficLightLoop env cur ref rest
      | .TRAFFIC_LIGHT_PROTECTED | .TRAFFIC_LIGHT_UNPROTECTED_LEFT_TURN
      | .TRAFFIC_LIGHT_UNPROTECTED_RIGHT_TURN =>
          if cur.status = .STATUS_DONE then ScenarioType.LANE_FOLLOW
          else trafficLightLoop env cur ref rest

/-- `ScenarioManager::SelectTrafficLightScenario`.  The passed
first-encountered overlap is unused by the body; the loop runs over the
context's `current_traffic_light_overlaps`. The threshold is read (in the
source, from the TRAFFIC_LIGHT_PROTECTED entry's unprotected-right-turn
config) as `max_valid_stop_distance`. -/
def selectTrafficLightScenario (env : Env) (cur : Scenario) (frame : Frame)
    (info : ScenarioInfo) (_first_encountered : PathOverlap) : ScenarioType :=
  trafficLightLoop env cur frame.reference_line_info.headI
    info.current_traffic_light_overlaps

/-- `ScenarioManager::SelectSidePassScenario`: reuse a transferable active
SIDE_PASS, else probe a freshly constructed one; `none` models the null
dereference that would occur if construction returned null. -/
def selectSidePassScenario (env : Env) (cur : Scenario) (frame : Frame) :
    Option ScenarioType :=
  if cur.scenario_type = .SIDE_PASS ∧ env.is_transferable cur cur frame then
    some ScenarioType.SIDE_PASS
  else
    match createScenario env .SIDE_PASS with
    | none => none
    | some sc =>
        if env.is_transferable sc cur frame then some ScenarioType.SIDE_PASS
        else some ScenarioType.LANE_FOLLOW

/-- The first overlap of a given kind in `FirstEncounteredOverlaps()`
(the dispatch scan keeps the first hit of each kind). -/
def findFirstOverlap (k : OverlapKind) :
    List (OverlapKind × PathOverlap) → Option PathOverlap
  | [] => none
  | (k', ov) :: rest => if k' = k then some ov else findFirstOverlap k rest

/-- `ScenarioManager::IsStopSignScenario`. -/
def isStopSignScenario (t : ScenarioType) : Bool :=
  t = .STOP_SIGN_PROTECTED || t = .STOP_SIGN_UNPROTECTED

/-- `ScenarioManager::IsTrafficLightScenario`. -/
def isTrafficLightScenario (t : ScenarioType) : Bool :=
  t = .TRAFFIC_LIGHT_PROTECTED || t = .TRAFFIC_LIGHT_UNPROTECTED_LEFT_TURN ||
    t = .TRAFFIC_LIGHT_UNPROTECTED_RIGHT_TURN

/-- `ScenarioManager::UpdatePlanningContext`. -/
def updatePlanningContext (frame : Frame) (cur : Scenario) (t : ScenarioType)
    (info : ScenarioInfo) : ScenarioInfo :=
  let ref := frame.reference_line_info.headI
  if !isStopSignScenario t && !isTrafficLightScenario t then
    { info with stop_done_overlap_ids := [] }
  else if isStopSignScenario t then
    if t ≠ cur.scenario_type then
      match findFirstOverlap .STOP_SIGN ref.first_encountered_overlaps with
      | some ov => { info with current_stop_sign_overlap := ov }
      | none => info
    else
      match ref.stop_sign_overlaps.find?
          (fun ov => ov.object_id = info.current_stop_sign_overlap.object_id) with
      | some ov => { info with current_stop_sign_overlap := ov }
      | none => info
  else info

/-- The "not switchable" sticky check at the top of `ScenarioDispatch`:
SIDE_PASS, the stop-sign types and the traffic-light types keep the candidate
pinned to the current type while their status is not DONE; everything else
leaves the candidate at LANE_FOLLOW. -/
def stickyType (cur : Scenario) : ScenarioType :=
  match cur.scenario_type with
  | .SIDE_PASS | .STOP_SIGN_PROTECTED | .STOP_SIGN_UNPROTECTED
  | .TRAFFIC_LIGHT_PROTECTED | .TRAFFIC_LIGHT_UNPROTECTED_LEFT_TURN
  | .TRAFFIC_LIGHT_UNPROTECTED_RIGHT_TURN =>
      if cur.status ≠ .STATUS_DONE then cur.scenario_type
      else ScenarioType.LANE_FOLLOW
  | _ => ScenarioType.LANE_FOLLOW

/-- The intersection step of `ScenarioDispatch`: when the candidate is still
LANE_FOLLOW, scan the first reference line's first-encountered overlaps for
the first stop-sign and the first signal overlap; with both present the one
with strictly smaller `start_s` wins and a tie goes to the traffic light;
each branch fires only when its feature flag is enabled. -/
def dispatchIntersectionType (env : Env) (cur : Scenario) (frame : Frame)
    (info : ScenarioInfo) : ScenarioType :=
  let s := stickyType cur
  if s = ScenarioType.LANE_FOLLOW then
    let ref := frame.reference_line_info.headI
    match findFirstOverlap .STOP_SIGN ref.first_encountered_overlaps,
        findFirstOverlap .SIGNAL ref.first_encountered_overlaps with
    | some ss, some tl =>
        if ss.start_s < tl.start_s then
          if env.enable_scenario_stop_sign then
            selectStopSignScenario env cur frame ss
          else ScenarioType.LANE_FOLLOW
        else
          if env.enable_scenario_traffic_light then
            selectTrafficLightScenario env cur frame info tl
          else ScenarioType.LANE_FOLLOW
    | some ss, none =>
        if env.enable_scenario_stop_sign then
          selectStopSignScenario env cur frame ss
        else ScenarioType.LANE_FOLLOW
    | none, some tl =>
        if env.enable_scenario_traffic_light then
          selectTrafficLightScenario env cur frame info tl
        else ScenarioType.LANE_FOLLOW
    | none, none => ScenarioType.LANE_FOLLOW
  else s

/-- The candidate type `ScenarioDispatch` resolves before the final
construct-and-replace step (intersection step, then the change-lane stub,
then the side-pass probe, each only while the candidate is LANE_FOLLOW). -/
def dispatchResolvedType (env : Env) (cur : Scenario) (frame : Frame)
    (info : ScenarioInfo) : Option ScenarioType :=
  let t1 := dispatchIntersectionType env cur frame info
  let t2 := if t1 = ScenarioType.LANE_FOLLOW then selectChangeLaneScenario frame
    else t1
  if t2 = ScenarioType.LANE_FOLLOW then selectSidePassScenario env cur frame
  else some t2

/-- `ScenarioManager::ScenarioDispatch`: `none` models the fatal CHECK on an
empty reference-line set and the dereference of a null current scenario. -/
def scenarioDispatch (env : Env) (frame : Frame) (st : ManagerState) :
    Option ManagerState :=
  if frame.reference_line_info.isEmpty then none
  else
    match st.current_scenario with
    | none => none
    | some cur =>
        match dispatchResolvedType env cur frame st.scenario_info with
        | none => none
        | some t =>
            let info2 := updatePlanningContext frame cur t st.scenario_info
            if cur.scenario_type ≠ t then
              some { st with
                scenario_info := info2
                current_scenario := createScenario env t }
            else some { st with scenario_info := info2 }

/-- Outcome of a self-vote candidate walk: a committed switch (or trivial
acceptance of the current type), list exhaustion with the final rejection set,
or the crash of probing a null construction.  The `Nat` is the running count
of `IsTransferable` probes. -/
inductive VoteOutcome where
  | accepted : Scenario → Nat → VoteOutcome
  | exhausted : List ScenarioType → Nat → VoteOutcome
  | crashed : VoteOutcome
deriving DecidableEq, Repr

/-- The preferred-list walk of `ScenarioSelfVote`: skip rejected or
unsupported types; `SelectScenario` accepts the current type without a probe,
otherwise constructs a trial scenario and probes its transferability, adding
the type to the rejection set on failure. -/
def preferredWalk (env : Env) (frame : Frame) (cur : Scenario)
    (supported : List ScenarioType) :
    List ScenarioType → List ScenarioType → Nat → VoteOutcome
  | [], rejected, n => .exhausted rejected n
  | t :: rest, rejected, n =>
      if t ∈ rejected ∨ t ∉ supported then
        preferredWalk env frame cur supported rest rejected n
      else if cur.scenario_type = t then .accepted cur n
      else
        match createScenario env t with
        | none => .crashed
        | some sc =>
            if env.is_transferable sc cur frame then .accepted sc (n + 1)
            else preferredWalk env frame cur supported rest (t :: rejected)
              (n + 1)

/-- The per-type feature-flag skip of the supported-set walk (note it skips
only STOP_SIGN_UNPROTECTED, not STOP_SIGN_PROTECTED). -/
def flagSkip (env : Env) (t : ScenarioType) : Bool :=
  (!env.enable_scenario_side_pass && t = .SIDE_PASS) ||
    (!env.enable_scenario_stop_sign && t = .STOP_SIGN_UNPROTECTED) ||
    (!env.enable_scenario_traffic_light &&
      (t = .TRAFFIC_LIGHT_PROTECTED ||
        t = .TRAFFIC_LIGHT_UNPROTECTED_LEFT_TURN ||
        t = .TRAFFIC_LIGHT_UNPROTECTED_RIGHT_TURN))

/-- The supported-set walk of `ScenarioSelfVote`: skip rejected types and
types whose feature flag is off, then the same accept/reject probe. -/
def supportedWalk (env : Env) (frame : Frame) (cur : Scenario) :
    List ScenarioType → List ScenarioType → Nat → VoteOutcome
  | [], rejected, n => .exhausted rejected n
  | t :: rest, rejected, n =>
      if t ∈ rejected then supportedWalk env frame cur rest rejected n
      else if flagSkip env t then supportedWalk env frame cur rest rejected n
      else if cur.scenario_type = t then .accepted cur n
      else
        match createScenario env t with
        | none => .crashed
        | some sc =>
            if env.is_transferable sc cur frame then .accepted sc (n + 1)
            else supportedWalk env frame cur rest (t :: rejected) (n + 1)

/-- The preferred-candidate list built from the first-encountered overlaps:
OBSTACLE contributes SIDE_PASS, STOP_SIGN contributes STOP_SIGN_UNPROTECTED,
SIGNAL contributes the three traffic-light types. -/
def buildPreferredScenarios :
    List (OverlapKind × PathOverlap) → List ScenarioType
  | [] => []
  | (k, _) :: rest =>
      (if k = .OBSTACLE then [ScenarioType.SIDE_PASS] else []) ++
        (if k = .STOP_SIGN then [ScenarioType.STOP_SIGN_UNPROTECTED] else []) ++
        (if k = .SIGNAL then
          [ScenarioType.TRAFFIC_LIGHT_PROTECTED,
           ScenarioType.TRAFFIC_LIGHT_UNPROTECTED_LEFT_TURN,
           ScenarioType.TRAFFIC_LIGHT_UNPROTECTED_RIGHT_TURN] else []) ++
        buildPreferredScenarios rest

/-- `ScenarioManager::ScenarioSelfVote`, instrumented with the number of
`IsTransferable` probes performed.  `none` models the fatal CHECK on an empty
reference-line set, the dereference of a null current scenario, and the
dereference of a null trial construction inside a walk. -/
def scenarioSelfVote (env : Env) (frame : Frame) (st : ManagerState) :
    Option (ManagerState × Nat) :=
  if frame.reference_line_info.isEmpty then none
  else
    match st.current_scenario with
    | none => none
    | some cur =>
        if cur.scenario_type ≠ st.default_scenario_type ∧
            env.is_transferable cur cur frame then
          some (st, 1)
        else
          let n0 : Nat :=
            if cur.scenario_type ≠ st.default_scenario_type then 1 else 0
          let rejected0 := [cur.scenario_type]
          let ref := frame.reference_line_info.headI
          let preferred := ScenarioType.LANE_FOLLOW ::
            buildPreferredScenarios ref.first_encountered_overlaps
          match preferredWalk env frame cur st.supported_scenarios preferred
              rejected0 n0 with
          | .crashed => none
          | .accepted sc n =>
              some ({ st with current_scenario := some sc }, n)
          | .exhausted rejected1 n1 =>
              match supportedWalk env frame cur st.supported_scenarios
                  rejected1 n1 with
              | .crashed => none
              | .accepted sc n =>
                  some ({ st with current_scenario := some sc }, n)
              | .exhausted _ n2 =>
                  if cur.scenario_type ≠ st.default_scenario_type then
                    some ({ st with current_scenario :=
                      createScenario env st.default_scenario_type }, n2)
                  else some (st, n2)

/-- `ScenarioManager::Update`: CHECK the reference lines, run `Observe`, then
one of the two strategies by the dispatcher flag. -/
def update (env : Env) (frame : Frame) (st : ManagerState) :
    Option ManagerState :=
  if frame.reference_line_info.isEmpty then none
  else
    let st := { st with scenario_info := observe env frame st.scenario_info }
    if env.enable_scenario_dispatcher then scenarioDispatch env frame st
    else (scenarioSelfVote env frame st).map Prod.fst

/-- Manager states reachable from `Init` by non-aborting `Update` cycles
(the environment and frame may vary from cycle to cycle). -/
inductive Reachable : ManagerState → Prop
  | init (env : Env) (supported : List ScenarioType) (info : ScenarioInfo) :
      Reachable (initManager env supported info)
  | step (env : Env) (frame : Frame) (st st' : ManagerState) :
      Reachable st → update env frame st = some st' → Reachable st'

/-! ## Concrete fixtures used by the examples and counterexamples -/

/-- A concrete environment: dispatcher on, all scenario features on,
stop-sign trigger distance 10, max valid stop distance 15, signal expiry 2 s,
clock at 1000 s, a transferability oracle that always refuses, and fresh
scenarios starting in STATUS_UNKNOWN. -/
def envA : Env :=
  { enable_scenario_dispatcher := true
    enable_scenario_side_pass := true
    enable_scenario_stop_sign := true
    enable_scenario_traffic_light := true
    start_stop_sign_scenario_distance := 10
    max_valid_stop_distance := 15
    signal_expire_time_sec := 2
    clock_now := 1000
    is_transferable := fun _ _ _ => false
    created_status := fun _ => .STATUS_UNKNOWN }

/-- `envA` with a transferability oracle that always accepts. -/
def envB : Env := { envA with is_transferable := fun _ _ _ => true }

/-- An empty planning context. -/
def infoA : ScenarioInfo :=
  { current_stop_sign_overlap := default
    stop_done_overlap_ids := []
    traffic_lights := []
    current_traffic_light_overlaps := [] }

/-- A stop-sign overlap starting at arc length 105. -/
def ssOverlapA : PathOverlap := ⟨"ss1", 105, 106⟩

/-- One reference line whose only first-encountered overlap is the stop sign
at 105, with the ADC front edge at `fe`. -/
def frameSS (fe : ℚ) : Frame :=
  { reference_line_info := [⟨fe, .NO_TURN, [(.STOP_SIGN, ssOverlapA)], []⟩]
    traffic_light := none }

/-- An active LANE_FOLLOW scenario. -/
def lfScenario : Scenario := ⟨.LANE_FOLLOW, .STATUS_UNKNOWN⟩

/-- A signaled overlap starting at arc length 108. -/
def tlOverlapA : PathOverlap := ⟨"tl1", 108, 109⟩

/-- One reference line (front edge at 100, turn classification `turn`)
whose only first-encountered overlap is the signal at 108 — distance 8. -/
def frameTL (turn : TurnType) : Frame :=
  { reference_line_info := [⟨100, turn, [(.SIGNAL, tlOverlapA)], []⟩]
    traffic_light := none }

/-- Context tracking the signaled overlap at 108. -/
def infoTL : ScenarioInfo :=
  { infoA with current_traffic_light_overlaps := [tlOverlapA] }

/-- A frame whose traffic-light detection was captured at time 0 — 1000
seconds before `envA`'s clock, far beyond the 2-second expiry. -/
def frameStale : Frame :=
  { reference_line_info := [default]
    traffic_light := some ⟨0, [⟨"tl1", .RED⟩]⟩ }

/-! ## Claim theorems -/

/-- Claim C1: the staleness gate of `ReadTrafficLight` compares
`timestamp_sec - now` (not `now - timestamp_sec`) against the expiry
threshold, so it only rejects messages dated in the future.  At this input
the detection message is 1000 seconds old — far beyond the 2-second expiry —
yet the shared traffic-light map still gets populated, where the claim (and
the spec) require it to be left empty. -/
theorem readTrafficLight_stale_populates :
    envA.clock_now - (0 : ℚ) > envA.signal_expire_time_sec ∧
    (readTrafficLight envA frameStale infoA).traffic_lights =
      [("tl1", TrafficLightColor.RED)] := by
  constructor
  · norm_num [envA]
  · norm_num [readTrafficLight, mapInsert, envA, frameStale, infoA]

/-- Claim C9, counterexample: `CreateScenario` invoked on
STOP_SIGN_PROTECTED — a type with no registered configuration and no switch
case — returns a null pointer (here `none`), a plain return value the caller
can observe, instead of failing fatally as the claim asserts. -/
theorem createScenario_unregistered_returns_null :
    createScenario envA .STOP_SIGN_PROTECTED = none := rfl

/-- Claim C9, amended: `CreateScenario` succeeds exactly on the six types
`RegisterScenarios` pre-loads a configuration for, returning a freshly
constructed scenario of that type carrying its post-`Init` status; for every
other type it returns a null pointer (a recoverable error value) rather than
aborting — the fatal configuration CHECKs live in `RegisterScenarios` at
startup, not in `CreateScenario`. -/
theorem createScenario_registered_iff (env : Env) (t : ScenarioType) :
    (t ∈ registeredTypes →
      createScenario env t = some ⟨t, env.created_status t⟩) ∧
    (t ∉ registeredTypes → createScenario env t = none) := by
  cases t <;> simp [registeredTypes, createScenario]

/-- Witness for `createScenario_registered_iff` at STOP_SIGN_UNPROTECTED. -/
theorem createScenario_registered_iff_witness :
    createScenario envA .STOP_SIGN_UNPROTECTED =
      some ⟨.STOP_SIGN_UNPROTECTED, envA.created_status .STOP_SIGN_UNPROTECTED⟩ :=
  (createScenario_registered_iff envA .STOP_SIGN_UNPROTECTED).1
    (by simp [registeredTypes])

/-- Claim C2, counterexample: with the active scenario SIDE_PASS whose status
is DONE (so the candidate reaches the stop-sign branch as LANE_FOLLOW), a
first-encountered stop sign at 105 and the front edge at 94 (distance 11,
beyond the threshold 10), the Dispatch strategy resolves SIDE_PASS — the
failed gate returns the active scenario's type, not LaneFollow as claimed. -/
theorem dispatch_stop_sign_gate_fail_keeps_current_type :
    dispatchResolvedType envA ⟨.SIDE_PASS, .STATUS_DONE⟩ (frameSS 94) infoA =
      some ScenarioType.SIDE_PASS ∧
    ScenarioType.SIDE_PASS ≠ ScenarioType.LANE_FOLLOW := by
  refine ⟨?_, by simp⟩
  have hss : findFirstOverlap .STOP_SIGN
      (frameSS (94 : ℚ)).reference_line_info.headI.first_encountered_overlaps =
      some ssOverlapA := rfl
  have htl : findFirstOverlap .SIGNAL
      (frameSS (94 : ℚ)).reference_line_info.headI.first_encountered_overlaps =
      none := rfl
  have hsticky : stickyType ⟨.SIDE_PASS, .STATUS_DONE⟩ =
      ScenarioType.LANE_FOLLOW := rfl
  have hflag : envA.enable_scenario_stop_sign = true := rfl
  have hsel : selectStopSignScenario envA ⟨.SIDE_PASS, .STATUS_DONE⟩
      (frameSS 94) ssOverlapA = ScenarioType.SIDE_PASS := by
    norm_num [selectStopSignScenario, frameSS, ssOverlapA, envA]
  simp only [dispatchResolvedType, dispatchIntersectionType, hsticky, hss, htl,
    hflag, hsel, if_true, ite_true, reduceIte]
  rfl

/-- The stop-sign gate of `SelectStopSignScenario`, for an active scenario of
one of the four switchable types: the result is STOP_SIGN_UNPROTECTED exactly
when the distance is strictly positive and within the configured threshold,
and a failed gate returns the active scenario's own type. -/
theorem stop_sign_gating_general (env : Env) (cur : Scenario) (frame : Frame)
    (ov : PathOverlap)
    (hcur : cur.scenario_type ∈ [ScenarioType.LANE_FOLLOW,
      ScenarioType.CHANGE_LANE, ScenarioType.SIDE_PASS,
      ScenarioType.APPROACH]) :
    (selectStopSignScenario env cur frame ov =
        ScenarioType.STOP_SIGN_UNPROTECTED ↔
      0 < ov.start_s - frame.reference_line_info.headI.adc_front_edge_s ∧
        ov.start_s - frame.reference_line_info.headI.adc_front_edge_s ≤
          env.start_stop_sign_scenario_distance) ∧
    (¬(0 < ov.start_s - frame.reference_line_info.headI.adc_front_edge_s ∧
        ov.start_s - frame.reference_line_info.headI.adc_front_edge_s ≤
          env.start_stop_sign_scenario_distance) →
      selectStopSignScenario env cur frame ov = cur.scenario_type) := by
  simp only [List.mem_cons, List.not_mem_nil, or_false] at hcur
  rcases hcur with h | h | h | h <;>
    by_cases h1 : 0 < ov.start_s -
      frame.reference_line_info.headI.adc_front_edge_s <;>
    by_cases h2 : ov.start_s -
        frame.reference_line_info.headI.adc_front_edge_s ≤
      env.start_stop_sign_scenario_distance <;>
    simp [selectStopSignScenario, h, h1, h2]

/-- Evaluation helper: on `frameSS fe` (single reference line, one
first-encountered stop sign, refusing side-pass oracle, active LANE_FOLLOW)
the Dispatch strategy resolves exactly what the stop-sign selection
returned. -/
theorem dispatch_frameSS_eval (fe : ℚ) (t : ScenarioType)
    (hsel : selectStopSignScenario envA lfScenario (frameSS fe) ssOverlapA = t) :
    dispatchResolvedType envA lfScenario (frameSS fe) infoA = some t := by
  have hss : findFirstOverlap .STOP_SIGN
      (frameSS fe).reference_line_info.headI.first_encountered_overlaps =
      some ssOverlapA := rfl
  have htl : findFirstOverlap .SIGNAL
      (frameSS fe).reference_line_info.headI.first_encountered_overlaps =
      none := rfl
  have hsticky : stickyType lfScenario = ScenarioType.LANE_FOLLOW := rfl
  have hflag : envA.enable_scenario_stop_sign = true := rfl
  have hcl : selectChangeLaneScenario (frameSS fe) =
      ScenarioType.LANE_FOLLOW := rfl
  have hsp : selectSidePassScenario envA lfScenario (frameSS fe) =
      some ScenarioType.LANE_FOLLOW := rfl
  simp only [dispatchResolvedType, dispatchIntersectionType, hsticky, hss, htl,
    hflag, hsel, hcl, hsp, if_true, ite_true, reduceIte]
  by_cases h : t = ScenarioType.LANE_FOLLOW <;> simp [h]

/-- Claim C2, amended: for an active scenario of type LaneFollow, ChangeLane,
SidePass or Approach, the winning stop-sign overlap selects
STOP_SIGN_UNPROTECTED exactly when `0 < distance ≤ threshold`; when the gate
fails the selection returns the *active scenario's type* (which is LaneFollow
precisely when the active scenario is LaneFollow).  Concretely, with
threshold 10 and overlap start 105 under an active LaneFollow: front edge
100 and 96 resolve STOP_SIGN_UNPROTECTED, 94 and 106 resolve LANE_FOLLOW. -/
theorem stop_sign_gating_amended (env : Env) (cur : Scenario) (frame : Frame)
    (ov : PathOverlap)
    (hcur : cur.scenario_type ∈ [ScenarioType.LANE_FOLLOW,
      ScenarioType.CHANGE_LANE, ScenarioType.SIDE_PASS,
      ScenarioType.APPROACH]) :
    ((selectStopSignScenario env cur frame ov =
        ScenarioType.STOP_SIGN_UNPROTECTED ↔
      0 < ov.start_s - frame.reference_line_info.headI.adc_front_edge_s ∧
        ov.start_s - frame.reference_line_info.headI.adc_front_edge_s ≤
          env.start_stop_sign_scenario_distance) ∧
    (¬(0 < ov.start_s - frame.reference_line_info.headI.adc_front_edge_s ∧
        ov.start_s - frame.reference_line_info.headI.adc_front_edge_s ≤
          env.start_stop_sign_scenario_distance) →
      selectStopSignScenario env cur frame ov = cur.scenario_type)) ∧
    dispatchResolvedType envA lfScenario (frameSS 100) infoA =
      some ScenarioType.STOP_SIGN_UNPROTECTED ∧
    dispatchResolvedType envA lfScenario (frameSS 96) infoA =
      some ScenarioType.STOP_SIGN_UNPROTECTED ∧
    dispatchResolvedType envA lfScenario (frameSS 94) infoA =
      some ScenarioType.LANE_FOLLOW ∧
    dispatchResolvedType envA lfScenario (frameSS 106) infoA =
      some ScenarioType.LANE_FOLLOW := by
  refine ⟨stop_sign_gating_general env cur frame ov hcur,
    dispatch_frameSS_eval 100 _ ?_, dispatch_frameSS_eval 96 _ ?_,
    dispatch_frameSS_eval 94 _ ?_, dispatch_frameSS_eval 106 _ ?_⟩ <;>
    norm_num [selectStopSignScenario, frameSS, ssOverlapA, envA, lfScenario]

/-- Witness for `stop_sign_gating_amended`: instantiated with an active
LaneFollow scenario, reading off the front-edge-100 dispatch result. -/
theorem stop_sign_gating_amended_witness :
    dispatchResolvedType envA lfScenario (frameSS 100) infoA =
      some ScenarioType.STOP_SIGN_UNPROTECTED :=
  (stop_sign_gating_amended envA lfScenario (frameSS 100) ssOverlapA
    (by simp [lfScenario])).2.1

/-- If any tracked signaled overlap is within the maximum valid stop
distance, the traffic-light loop (for an active scenario of one of the four
switchable types) returns the turn-classified traffic-light type. -/
theorem trafficLightLoop_triggers (env : Env) (cur : Scenario)
    (ref : ReferenceLineInfo) (l : List PathOverlap)
    (hcur : cur.scenario_type ∈ [ScenarioType.LANE_FOLLOW,
      ScenarioType.CHANGE_LANE, ScenarioType.SIDE_PASS,
      ScenarioType.APPROACH])
    (hex : ∃ ov ∈ l,
      ov.start_s - ref.adc_front_edge_s ≤ env.max_valid_stop_distance) :
    trafficLightLoop env cur ref l =
      if ref.path_turn_type = .RIGHT_TURN then
        ScenarioType.TRAFFIC_LIGHT_UNPROTECTED_RIGHT_TURN
      else ScenarioType.TRAFFIC_LIGHT_PROTECTED := by
  simp only [List.mem_cons, List.not_mem_nil, or_false] at hcur
  induction l with
  | nil => simp at hex
  | cons ov rest ih =>
      by_cases hov : ov.start_s - ref.adc_front_edge_s ≤
          env.max_valid_stop_distance
      · rcases hcur with h | h | h | h <;>
          simp [trafficLightLoop, h, hov, ite_self]
      · have hex' : ∃ w ∈ rest,
            w.start_s - ref.adc_front_edge_s ≤ env.max_valid_stop_distance := by
          rcases hex with ⟨w, hw, hd⟩
          rcases List.mem_cons.mp hw with rfl | hw'
          · exact absurd hd hov
          · exact ⟨w, hw', hd⟩
        rcases hcur with h | h | h | h <;>
          simpa [trafficLightLoop, h, hov] using ih hex'

/-- Evaluation helper: on `frameTL turn` with context `infoTL` and active
LANE_FOLLOW, the Dispatch strategy resolves exactly what the traffic-light
selection returned. -/
theorem dispatch_frameTL_eval (turn : TurnType) (t : ScenarioType)
    (hsel : selectTrafficLightScenario envA lfScenario (frameTL turn) infoTL
      tlOverlapA = t) :
    dispatchResolvedType envA lfScenario (frameTL turn) infoTL = some t := by
  have hss : findFirstOverlap .STOP_SIGN
      (frameTL turn).reference_line_info.headI.first_encountered_overlaps =
      none := rfl
  have htl : findFirstOverlap .SIGNAL
      (frameTL turn).reference_line_info.headI.first_encountered_overlaps =
      some tlOverlapA := rfl
  have hsticky : stickyType lfScenario = ScenarioType.LANE_FOLLOW := rfl
  have hflag : envA.enable_scenario_traffic_light = true := rfl
  have hcl : selectChangeLaneScenario (frameTL turn) =
      ScenarioType.LANE_FOLLOW := rfl
  have hsp : selectSidePassScenario envA lfScenario (frameTL turn) =
      some ScenarioType.LANE_FOLLOW := rfl
  simp only [dispatchResolvedType, dispatchIntersectionType, hsticky, hss, htl,
    hflag, hsel, hcl, hsp, if_true, ite_true, reduceIte]
  by_cases h : t = ScenarioType.LANE_FOLLOW <;> simp [h]

/-- Claim C3: a tracked signaled overlap within the maximum valid stop
distance is classified by the route's turn type — right turn gives
TRAFFIC_LIGHT_UNPROTECTED_RIGHT_TURN, left turn gives
TRAFFIC_LIGHT_PROTECTED, anything else gives TRAFFIC_LIGHT_PROTECTED.
Concretely, on a single reference line with no stop sign, a signaled overlap
at distance 8 with max_valid_stop_distance 15 dispatches to the right-turn
variant under right-turn classification and to the protected variant under
straight classification. -/
theorem traffic_light_classification (env : Env) (cur : Scenario)
    (frame : Frame) (info : ScenarioInfo) (ov : PathOverlap)
    (hcur : cur.scenario_type ∈ [ScenarioType.LANE_FOLLOW,
      ScenarioType.CHANGE_LANE, ScenarioType.SIDE_PASS,
      ScenarioType.APPROACH])
    (hex : ∃ w ∈ info.current_traffic_light_overlaps,
      w.start_s - frame.reference_line_info.headI.adc_front_edge_s ≤
        env.max_valid_stop_distance) :
    (selectTrafficLightScenario env cur frame info ov =
      match frame.reference_line_info.headI.path_turn_type with
      | .RIGHT_TURN => ScenarioType.TRAFFIC_LIGHT_UNPROTECTED_RIGHT_TURN
      | .LEFT_TURN => ScenarioType.TRAFFIC_LIGHT_PROTECTED
      | _ => ScenarioType.TRAFFIC_LIGHT_PROTECTED) ∧
    dispatchResolvedType envA lfScenario (frameTL .RIGHT_TURN) infoTL =
      some ScenarioType.TRAFFIC_LIGHT_UNPROTECTED_RIGHT_TURN ∧
    dispatchResolvedType envA lfScenario (frameTL .NO_TURN) infoTL =
      some ScenarioType.TRAFFIC_LIGHT_PROTECTED := by
  refine ⟨?_, dispatch_frameTL_eval .RIGHT_TURN _ ?_,
    dispatch_frameTL_eval .NO_TURN _ ?_⟩
  · have hloop := trafficLightLoop_triggers env cur
      frame.reference_line_info.headI info.current_traffic_light_overlaps
      hcur hex
    simp only [selectTrafficLightScenario, hloop]
    cases h : frame.reference_line_info.headI.path_turn_type <;> simp [h]
  · norm_num [selectTrafficLightScenario, trafficLightLoop, frameTL, infoTL,
      infoA, tlOverlapA, envA, lfScenario]
  · norm_num [selectTrafficLightScenario, trafficLightLoop, frameTL, infoTL,
      infoA, tlOverlapA, envA, lfScenario]
    exact fun h => absurd h (by decide)

/-- Witness for `traffic_light_classification`: instantiated with an active
LaneFollow on the distance-8 right-turn frame. -/
theorem traffic_light_classification_witness :
    dispatchResolvedType envA lfScenario (frameTL .RIGHT_TURN) infoTL =
      some ScenarioType.TRAFFIC_LIGHT_UNPROTECTED_RIGHT_TURN :=
  (traffic_light_classification envA lfScenario (frameTL .RIGHT_TURN) infoTL
    tlOverlapA (by simp [lfScenario])
    ⟨tlOverlapA, by simp [infoTL, infoA], by norm_num [frameTL, tlOverlapA,
      envA]⟩).2.1

/-- A signaled overlap already 5 behind the front edge. -/
def tlOverlapNeg : PathOverlap := ⟨"tl2", 95, 96⟩

/-- Reference line with the front edge at 100, straight route, tracking only
the overlap behind the vehicle. -/
def frameTLNeg : Frame :=
  { reference_line_info := [⟨100, .NO_TURN, [(.SIGNAL, tlOverlapNeg)], []⟩]
    traffic_light := none }

/-- Context tracking only the signaled overlap behind the front edge. -/
def infoTLNeg : ScenarioInfo :=
  { infoA with current_traffic_light_overlaps := [tlOverlapNeg] }

/-- Claim C10: the traffic-light distance gate is a pure upper bound — any
tracked signaled overlap with `start_s − front_edge ≤ max_valid_stop_distance`
triggers a traffic-light scenario, with no positivity requirement, and a
concrete overlap at distance −5 still triggers TRAFFIC_LIGHT_PROTECTED;
by contrast the stop-sign gate refuses every non-positive distance. -/
theorem traffic_light_no_lower_bound (env : Env) (cur : Scenario)
    (frame : Frame) (info : ScenarioInfo) (ov ss_ov : PathOverlap)
    (hcur : cur.scenario_type ∈ [ScenarioType.LANE_FOLLOW,
      ScenarioType.CHANGE_LANE, ScenarioType.SIDE_PASS,
      ScenarioType.APPROACH]) :
    ((∃ w ∈ info.current_traffic_light_overlaps,
        w.start_s - frame.reference_line_info.headI.adc_front_edge_s ≤
          env.max_valid_stop_distance) →
      isTrafficLightScenario
        (selectTrafficLightScenario env cur frame info ov) = true) ∧
    (ss_ov.start_s - frame.reference_line_info.headI.adc_front_edge_s ≤ 0 →
      selectStopSignScenario env cur frame ss_ov ≠
        ScenarioType.STOP_SIGN_UNPROTECTED) ∧
    selectTrafficLightScenario envA lfScenario frameTLNeg infoTLNeg
      tlOverlapNeg = ScenarioType.TRAFFIC_LIGHT_PROTECTED := by
  refine ⟨?_, ?_, ?_⟩
  · intro hex
    have hloop := trafficLightLoop_triggers env cur
      frame.reference_line_info.headI info.current_traffic_light_overlaps
      hcur hex
    simp only [selectTrafficLightScenario, hloop]
    by_cases h : frame.reference_line_info.headI.path_turn_type =
        .RIGHT_TURN <;> simp [h, isTrafficLightScenario]
  · intro hle
    have hno : ¬(0 < ss_ov.start_s -
        frame.reference_line_info.headI.adc_front_edge_s ∧
        ss_ov.start_s - frame.reference_line_info.headI.adc_front_edge_s ≤
          env.start_stop_sign_scenario_distance) := by
      rintro ⟨h1, _⟩
      exact absurd hle (not_le.mpr h1)
    have heq := (stop_sign_gating_general env cur frame ss_ov hcur).2 hno
    rw [heq]
    simp only [List.mem_cons, List.not_mem_nil, or_false] at hcur
    rcases hcur with h | h | h | h <;> simp [h]
  · norm_num [selectTrafficLightScenario, trafficLightLoop, frameTLNeg,
      infoTLNeg, infoA, tlOverlapNeg, envA, lfScenario]
    exact fun h => absurd h (by decide)

/-- Witness for `traffic_light_no_lower_bound`: the distance −5 overlap
triggers a traffic-light scenario under an active LaneFollow. -/
theorem traffic_light_no_lower_bound_witness :
    isTrafficLightScenario (selectTrafficLightScenario envA lfScenario
      frameTLNeg infoTLNeg tlOverlapNeg) = true :=
  (traffic_light_no_lower_bound envA lfScenario frameTLNeg infoTLNeg
    tlOverlapNeg tlOverlapNeg (by simp [lfScenario])).1
    ⟨tlOverlapNeg, by simp [infoTLNeg, infoA], by norm_num [frameTLNeg,
      tlOverlapNeg, envA]⟩

/-- Claim C4: with both a first-encountered stop-sign overlap and a
first-encountered traffic-light overlap present and the candidate still
LANE_FOLLOW, the Dispatch strategy takes the stop-sign branch exactly when
its `start_s` is strictly smaller; otherwise — including the exact tie —
it takes the traffic-light branch. -/
theorem dispatch_overlap_tie_break (env : Env) (cur : Scenario) (frame : Frame)
    (info : ScenarioInfo) (ss tl : PathOverlap)
    (hcur : cur.scenario_type = ScenarioType.LANE_FOLLOW)
    (hss : findFirstOverlap .STOP_SIGN
      frame.reference_line_info.headI.first_encountered_overlaps = some ss)
    (htl : findFirstOverlap .SIGNAL
      frame.reference_line_info.headI.first_encountered_overlaps = some tl) :
    (ss.start_s < tl.start_s →
      dispatchIntersectionType env cur frame info =
        if env.enable_scenario_stop_sign then
          selectStopSignScenario env cur frame ss
        else ScenarioType.LANE_FOLLOW) ∧
    (tl.start_s ≤ ss.start_s →
      dispatchIntersectionType env cur frame info =
        if env.enable_scenario_traffic_light then
          selectTrafficLightScenario env cur frame info tl
        else ScenarioType.LANE_FOLLOW) ∧
    (ss.start_s = tl.start_s →
      dispatchIntersectionType env cur frame info =
        if env.enable_scenario_traffic_light then
          selectTrafficLightScenario env cur frame info tl
        else ScenarioType.LANE_FOLLOW) := by
  have hsticky : stickyType cur = ScenarioType.LANE_FOLLOW := by
    simp [stickyType, hcur]
  refine ⟨fun hlt => ?_, fun hle => ?_, fun heq => ?_⟩ <;>
    simp only [dispatchIntersectionType, hsticky, hss, htl, if_true, ite_true,
      reduceIte]
  · rw [if_pos hlt]
  · rw [if_neg (not_lt.mpr hle)]
  · rw [if_neg (by rw [heq]; exact lt_irrefl tl.start_s)]

/-- A stop-sign overlap at 105 for the tie-break witness. -/
def tieSs : PathOverlap := ⟨"ss1", 105, 106⟩
/-- A traffic-light overlap at the same `start_s` 105. -/
def tieTl : PathOverlap := ⟨"tl1", 105, 106⟩
/-- A frame carrying both overlaps at equal `start_s`. -/
def frameTie : Frame :=
  { reference_line_info :=
      [⟨100, .NO_TURN, [(.STOP_SIGN, tieSs), (.SIGNAL, tieTl)], []⟩]
    traffic_light := none }

/-- Witness for `dispatch_overlap_tie_break`: at the exact tie the
traffic-light branch is taken. -/
theorem dispatch_overlap_tie_break_witness :
    dispatchIntersectionType envA lfScenario frameTie infoA =
      if envA.enable_scenario_traffic_light then
        selectTrafficLightScenario envA lfScenario frameTie infoA tieTl
      else ScenarioType.LANE_FOLLOW :=
  (dispatch_overlap_tie_break envA lfScenario frameTie infoA tieSs tieTl rfl
    rfl rfl).2.2 (by norm_num [tieSs, tieTl])

/-- Claim C5: when the active scenario's type is SIDE_PASS, a stop-sign
type, or a traffic-light type and its status is not DONE, the Dispatch
strategy resolves exactly the active scenario's type — the overlap scan,
change-lane and side-pass steps are skipped. -/
theorem dispatch_sticky_scenario (env : Env) (cur : Scenario) (frame : Frame)
    (info : ScenarioInfo)
    (hcur : cur.scenario_type ∈ [ScenarioType.SIDE_PASS,
      ScenarioType.STOP_SIGN_PROTECTED, ScenarioType.STOP_SIGN_UNPROTECTED,
      ScenarioType.TRAFFIC_LIGHT_PROTECTED,
      ScenarioType.TRAFFIC_LIGHT_UNPROTECTED_LEFT_TURN,
      ScenarioType.TRAFFIC_LIGHT_UNPROTECTED_RIGHT_TURN])
    (hst : cur.status ≠ ScenarioStatus.STATUS_DONE) :
    dispatchResolvedType env cur frame info = some cur.scenario_type := by
  simp only [List.mem_cons, List.not_mem_nil, or_false] at hcur
  have hsticky : stickyType cur = cur.scenario_type := by
    rcases hcur with h | h | h | h | h | h <;> simp [stickyType, h, hst]
  have hne : cur.scenario_type ≠ ScenarioType.LANE_FOLLOW := by
    rcases hcur with h | h | h | h | h | h <;> simp [h]
  simp [dispatchResolvedType, dispatchIntersectionType, hsticky, hne]

/-- Witness for `dispatch_sticky_scenario`: an in-progress
STOP_SIGN_UNPROTECTED stays selected. -/
theorem dispatch_sticky_scenario_witness :
    dispatchResolvedType envA ⟨.STOP_SIGN_UNPROTECTED, .STATUS_PROCESSING⟩
      (frameSS 100) infoA = some ScenarioType.STOP_SIGN_UNPROTECTED :=
  dispatch_sticky_scenario envA ⟨.STOP_SIGN_UNPROTECTED, .STATUS_PROCESSING⟩
    (frameSS 100) infoA (by decide) (by decide)

/-- Claim C7: `ScenarioDispatch` replaces the active Scenario exactly when
the resolved candidate type differs from the active type — on a type match
the very same instance (hence its status and progress) is kept, and on a
mismatch the new instance is the factory's construction of the resolved
type. -/
theorem dispatch_replacement_iff_type_change (env : Env) (frame : Frame)
    (st : ManagerState) (cur : Scenario) (t : ScenarioType)
    (st' : ManagerState)
    (hcur : st.current_scenario = some cur)
    (ht : dispatchResolvedType env cur frame st.scenario_info = some t)
    (hd : scenarioDispatch env frame st = some st') :
    (t = cur.scenario_type → st'.current_scenario = st.current_scenario) ∧
    (t ≠ cur.scenario_type → st'.current_scenario = createScenario env t) := by
  simp only [scenarioDispatch, hcur, ht] at hd
  split at hd
  · simp at hd
  · split at hd
    · rename_i hne
      have hst' := Option.some.inj hd
      subst hst'
      exact ⟨fun h => absurd h.symm hne, fun _ => rfl⟩
    · rename_i hne
      have heq := not_ne_iff.mp hne
      have hst' := Option.some.inj hd
      subst hst'
      exact ⟨fun _ => hcur.symm, fun h => absurd heq.symm h⟩

/-- Manager state for the replacement witness: active LaneFollow. -/
def stC7 : ManagerState :=
  { default_scenario_type := .LANE_FOLLOW
    supported_scenarios := registeredTypes
    current_scenario := some lfScenario
    scenario_info := infoA }

/-- The state `ScenarioDispatch` produces from `stC7` on `frameSS 100`. -/
def stC7' : ManagerState :=
  { stC7 with
    scenario_info := updatePlanningContext (frameSS 100) lfScenario
      .STOP_SIGN_UNPROTECTED infoA
    current_scenario := createScenario envA .STOP_SIGN_UNPROTECTED }

/-- Witness for `dispatch_replacement_iff_type_change`: resolving
STOP_SIGN_UNPROTECTED over an active LaneFollow replaces the instance with
the factory's construction. -/
theorem dispatch_replacement_iff_type_change_witness :
    stC7'.current_scenario = createScenario envA .STOP_SIGN_UNPROTECTED := by
  have hres : dispatchResolvedType envA lfScenario (frameSS 100)
      infoA = some ScenarioType.STOP_SIGN_UNPROTECTED :=
    dispatch_frameSS_eval 100 _ (by norm_num [selectStopSignScenario, frameSS,
      ssOverlapA, envA, lfScenario])
  have hd : scenarioDispatch envA (frameSS 100) stC7 = some stC7' := by
    simp only [scenarioDispatch, stC7, hres, ne_eq, reduceIte]
    rfl
  exact (dispatch_replacement_iff_type_change envA (frameSS 100) stC7
    lfScenario .STOP_SIGN_UNPROTECTED stC7' rfl hres hd).2 (by decide)

/-- `SelectStopSignScenario` can only return STOP_SIGN_UNPROTECTED,
LANE_FOLLOW, or the active scenario's own type. -/
theorem selectStopSign_result_cases (env : Env) (cur : Scenario)
    (frame : Frame) (ov : PathOverlap) :
    selectStopSignScenario env cur frame ov =
        ScenarioType.STOP_SIGN_UNPROTECTED ∨
      selectStopSignScenario env cur frame ov = ScenarioType.LANE_FOLLOW ∨
      selectStopSignScenario env cur frame ov = cur.scenario_type := by
  obtain ⟨t, st⟩ := cur
  cases t <;> simp only [selectStopSignScenario] <;>
    first
      | (split_ifs <;> simp_all)
      | simp

/-- The traffic-light loop can only return one of the two traffic-light
results, LANE_FOLLOW, or the active scenario's own type. -/
theorem trafficLightLoop_result_cases (env : Env) (cur : Scenario)
    (ref : ReferenceLineInfo) (l : List PathOverlap) :
    trafficLightLoop env cur ref l =
        ScenarioType.TRAFFIC_LIGHT_UNPROTECTED_RIGHT_TURN ∨
      trafficLightLoop env cur ref l = ScenarioType.TRAFFIC_LIGHT_PROTECTED ∨
      trafficLightLoop env cur ref l = ScenarioType.LANE_FOLLOW ∨
      trafficLightLoop env cur ref l = cur.scenario_type := by
  obtain ⟨t, st⟩ := cur
  induction l with
  | nil => simp [trafficLightLoop]
  | cons ov rest ih =>
      cases t <;> simp only [trafficLightLoop] <;>
        first
          | (split_ifs <;> simp_all)
          | simp_all

/-- The sticky check yields either the active type or LANE_FOLLOW. -/
theorem stickyType_cases (cur : Scenario) :
    stickyType cur = cur.scenario_type ∨
      stickyType cur = ScenarioType.LANE_FOLLOW := by
  obtain ⟨t, st⟩ := cur
  cases t <;> simp only [stickyType] <;>
    first
      | (split_ifs <;> simp_all)
      | simp

/-- The intersection step only ever produces STOP_SIGN_UNPROTECTED, a
traffic-light type, LANE_FOLLOW, or the active scenario's type. -/
theorem dispatchIntersectionType_mem (env : Env) (cur : Scenario)
    (frame : Frame) (info : ScenarioInfo) :
    dispatchIntersectionType env cur frame info ∈
      [ScenarioType.STOP_SIGN_UNPROTECTED,
       ScenarioType.TRAFFIC_LIGHT_UNPROTECTED_RIGHT_TURN,
       ScenarioType.TRAFFIC_LIGHT_PROTECTED, ScenarioType.LANE_FOLLOW,
       cur.scenario_type] := by
  have hssmem : ∀ ov, selectStopSignScenario env cur frame ov ∈
      [ScenarioType.STOP_SIGN_UNPROTECTED,
       ScenarioType.TRAFFIC_LIGHT_UNPROTECTED_RIGHT_TURN,
       ScenarioType.TRAFFIC_LIGHT_PROTECTED, ScenarioType.LANE_FOLLOW,
       cur.scenario_type] := by
    intro ov
    rcases selectStopSign_result_cases env cur frame ov with h | h | h <;>
      simp [h]
  have htlmem : ∀ ov, selectTrafficLightScenario env cur frame info ov ∈
      [ScenarioType.STOP_SIGN_UNPROTECTED,
       ScenarioType.TRAFFIC_LIGHT_UNPROTECTED_RIGHT_TURN,
       ScenarioType.TRAFFIC_LIGHT_PROTECTED, ScenarioType.LANE_FOLLOW,
       cur.scenario_type] := by
    intro ov
    rcases trafficLightLoop_result_cases env cur
        frame.reference_line_info.headI
        info.current_traffic_light_overlaps with h | h | h | h <;>
      simp [selectTrafficLightScenario, h]
  by_cases hs : stickyType cur = ScenarioType.LANE_FOLLOW
  · rw [dispatchIntersectionType, if_pos hs]
    rcases hss : findFirstOverlap .STOP_SIGN
        frame.reference_line_info.headI.first_encountered_overlaps
      with _ | ss <;>
    rcases htl : findFirstOverlap .SIGNAL
        frame.reference_line_info.headI.first_encountered_overlaps
      with _ | tl <;>
    simp only [hss, htl] <;>
      first
        | (split_ifs <;> first | exact hssmem _ | exact htlmem _ | simp)
        | simp
  · rw [dispatchIntersectionType, if_neg hs]
    rcases stickyType_cases cur with h | h
    · simp [h]
    · exact absurd h hs

/-- The change-lane stub always resolves LANE_FOLLOW. -/
theorem selectChangeLane_eq (frame : Frame) :
    selectChangeLaneScenario frame = ScenarioType.LANE_FOLLOW := by
  simp [selectChangeLaneScenario]

/-- `SelectSidePassScenario` always returns SIDE_PASS or LANE_FOLLOW (the
SIDE_PASS construction never yields a null pointer). -/
theorem selectSidePass_result_cases (env : Env) (cur : Scenario)
    (frame : Frame) :
    selectSidePassScenario env cur frame = some ScenarioType.SIDE_PASS ∨
      selectSidePassScenario env cur frame =
        some ScenarioType.LANE_FOLLOW := by
  unfold selectSidePassScenario
  split_ifs <;> simp [createScenario]

/-- Whatever type `ScenarioDispatch` resolves is either the active type
(no replacement happens) or a type the factory can construct. -/
theorem dispatchResolvedType_constructible (env : Env) (cur : Scenario)
    (frame : Frame) (info : ScenarioInfo) (t : ScenarioType)
    (h : dispatchResolvedType env cur frame info = some t) :
    t = cur.scenario_type ∨ (createScenario env t).isSome := by
  simp only [dispatchResolvedType] at h
  have ht2 : (if dispatchIntersectionType env cur frame info =
        ScenarioType.LANE_FOLLOW then selectChangeLaneScenario frame
      else dispatchIntersectionType env cur frame info) =
      dispatchIntersectionType env cur frame info := by
    split_ifs with h1
    · rw [selectChangeLane_eq, h1]
    · rfl
  rw [ht2] at h
  by_cases h1 : dispatchIntersectionType env cur frame info =
      ScenarioType.LANE_FOLLOW
  · rw [if_pos h1] at h
    rcases selectSidePass_result_cases env cur frame with hs | hs <;>
      rw [hs] at h <;> obtain rfl := Option.some.inj h <;>
      simp [createScenario]
  · rw [if_neg h1] at h
    obtain rfl := Option.some.inj h
    have hmem := dispatchIntersectionType_mem env cur frame info
    simp only [List.mem_cons, List.not_mem_nil, or_false] at hmem
    rcases hmem with h2 | h2 | h2 | h2 | h2 <;>
      simp [h2, createScenario]

/-- A non-aborting `ScenarioDispatch` leaves the manager with a non-null
active scenario and an unchanged default type. -/
theorem scenarioDispatch_preserves (env : Env) (frame : Frame)
    (st st' : ManagerState) (h : scenarioDispatch env frame st = some st') :
    st'.current_scenario.isSome = true ∧
      st'.default_scenario_type = st.default_scenario_type := by
  rcases hcur : st.current_scenario with _ | cur
  · simp [scenarioDispatch, hcur] at h
  · rcases hres : dispatchResolvedType env cur frame st.scenario_info
      with _ | t
    · simp [scenarioDispatch, hcur, hres] at h
    · simp only [scenarioDispatch, hcur, hres] at h
      split at h
      · simp at h
      · split at h
        · rename_i hne
          obtain heq := Option.some.inj h
          subst heq
          refine ⟨?_, rfl⟩
          rcases dispatchResolvedType_constructible env cur frame
              st.scenario_info t hres with h2 | h2
          · exact absurd h2.symm hne
          · simpa using h2
        · obtain heq := Option.some.inj h
          subst heq
          exact ⟨by simp [hcur], rfl⟩

/-- A non-aborting `ScenarioSelfVote` under the LANE_FOLLOW default leaves
the manager with a non-null active scenario and an unchanged default. -/
theorem scenarioSelfVote_preserves (env : Env) (frame : Frame)
    (st st' : ManagerState) (n : Nat)
    (hdef : st.default_scenario_type = ScenarioType.LANE_FOLLOW)
    (h : scenarioSelfVote env frame st = some (st', n)) :
    st'.current_scenario.isSome = true ∧
      st'.default_scenario_type = st.default_scenario_type := by
  rcases hcur : st.current_scenario with _ | cur
  · simp [scenarioSelfVote, hcur] at h
  · simp only [scenarioSelfVote, hcur] at h
    split at h
    · simp at h
    · split at h
      · obtain heq := Option.some.inj h
        injection heq with h1 h2
        subst h1
        exact ⟨by simp [hcur], rfl⟩
      · split at h
        · simp at h
        · obtain heq := Option.some.inj h
          injection heq with h1 h2
          subst h1
          exact ⟨by simp, rfl⟩
        · split at h
          · simp at h
          · obtain heq := Option.some.inj h
            injection heq with h1 h2
            subst h1
            exact ⟨by simp, rfl⟩
          · split at h
            · obtain heq := Option.some.inj h
              injection heq with h1 h2
              subst h1
              refine ⟨?_, rfl⟩
              show (createScenario env st.default_scenario_type).isSome = true
              rw [hdef]
              simp [createScenario]

            · obtain heq := Option.some.inj h
              injection heq with h1 h2
              subst h1
              exact ⟨by simp [hcur], rfl⟩

/-- A non-aborting `Update` preserves non-nullness of the active scenario
and the default type. -/
theorem update_preserves (env : Env) (frame : Frame) (st st' : ManagerState)
    (hdef : st.default_scenario_type = ScenarioType.LANE_FOLLOW)
    (h : update env frame st = some st') :
    st'.current_scenario.isSome = true ∧
      st'.default_scenario_type = st.default_scenario_type := by
  simp only [update] at h
  split at h
  · simp at h
  · split at h
    · exact scenarioDispatch_preserves env frame
        { st with scenario_info := observe env frame st.scenario_info } st' h
    · rcases hv : scenarioSelfVote env frame
          { st with scenario_info := observe env frame st.scenario_info }
        with _ | p
      · rw [hv] at h
        simp at h
      · rw [hv] at h
        obtain ⟨st2, n⟩ := p
        simp only [Option.map_some'] at h
        obtain heq := Option.some.inj h
        have hpres := scenarioSelfVote_preserves env frame
          { st with scenario_info := observe env frame st.scenario_info }
          st2 n hdef hv
        exact heq ▸ hpres

/-- The inductive invariant: default fixed at LANE_FOLLOW and a non-null
active scenario. -/
def managerInv (st : ManagerState) : Prop :=
  st.default_scenario_type = ScenarioType.LANE_FOLLOW ∧
    st.current_scenario.isSome = true

/-- Every state reachable from `Init` satisfies the invariant. -/
theorem reachable_managerInv (st : ManagerState) (h : Reachable st) :
    managerInv st := by
  induction h with
  | init env supported info =>
      exact ⟨rfl, by simp [initManager, createScenario]⟩
  | step env frame s s' hs hup ih =>
      obtain ⟨hd, hc⟩ := ih
      have hpres := update_preserves env frame s s' hd hup
      exact ⟨hpres.2.trans hd, hpres.1⟩

/-- Claim C6: after `Init` and after every non-aborting `Update` (under
either strategy, any supported set, any frame), the manager holds exactly
one non-null active Scenario. -/
theorem manager_current_scenario_nonnull (st : ManagerState)
    (h : Reachable st) : ∃ s, st.current_scenario = some s :=
  Option.isSome_iff_exists.mp (reachable_managerInv st h).2

/-- Witness for `manager_current_scenario_nonnull` at the freshly
initialized manager. -/
theorem manager_current_scenario_nonnull_witness :
    ∃ s, (initManager envA registeredTypes infoA).current_scenario = some s :=
  manager_current_scenario_nonnull (initManager envA registeredTypes infoA)
    (Reachable.init envA registeredTypes infoA)

/-- The number of entries of `supported` not yet in the rejection set —
the potential function bounding the remaining transferability probes. -/
def remCount (supported rejected : List ScenarioType) : Nat :=
  match supported with
  | [] => 0
  | a :: s =>
      if a ∈ rejected then remCount s rejected else remCount s rejected + 1

/-- The potential never exceeds the supported list's length. -/
theorem remCount_le (supported rejected : List ScenarioType) :
    remCount supported rejected ≤ supported.length := by
  induction supported with
  | nil => simp [remCount]
  | cons a s ih =>
      simp only [remCount, List.length_cons]
      split_ifs <;> omega

/-- With nothing rejected the potential is the full length. -/
theorem remCount_nil (supported : List ScenarioType) :
    remCount supported [] = supported.length := by
  induction supported with
  | nil => simp [remCount]
  | cons a s ih => simp [remCount, ih]

/-- Growing the rejection set cannot increase the potential. -/
theorem remCount_mono (supported rejected : List ScenarioType)
    (t : ScenarioType) :
    remCount supported (t :: rejected) ≤ remCount supported rejected := by
  induction supported with
  | nil => simp [remCount]
  | cons a s ih =>
      simp only [remCount]
      by_cases h2 : a ∈ rejected
      · have h1 : a ∈ t :: rejected := List.mem_cons_of_mem t h2
        simp only [h1, h2, if_true, ite_true, if_pos]
        omega
      · by_cases h1 : a ∈ t :: rejected
        · rw [if_pos h1, if_neg h2]
          omega
        · rw [if_neg h1, if_neg h2]
          omega

/-- A supported, not-yet-rejected type keeps the potential positive. -/
theorem remCount_pos (supported rejected : List ScenarioType)
    (t : ScenarioType) (ht : t ∈ supported) (hnr : t ∉ rejected) :
    1 ≤ remCount supported rejected := by
  induction supported with
  | nil => cases ht
  | cons a s ih =>
      simp only [remCount]
      rcases List.mem_cons.mp ht with rfl | hts
      · rw [if_neg hnr]
        omega
      · by_cases h2 : a ∈ rejected
        · rw [if_pos h2]
          exact ih hts
        · rw [if_neg h2]
          omega

/-- Rejecting a supported, not-yet-rejected type strictly drops the
potential. -/
theorem remCount_cons_lt (supported rejected : List ScenarioType)
    (t : ScenarioType) (ht : t ∈ supported) (hnr : t ∉ rejected) :
    remCount supported (t :: rejected) + 1 ≤ remCount supported rejected := by
  induction supported with
  | nil => cases ht
  | cons a s ih =>
      simp only [remCount]
      rcases List.mem_cons.mp ht with rfl | hts
      · rw [if_pos (List.mem_cons_self t rejected), if_neg hnr]
        have := remCount_mono s rejected t
        omega
      · by_cases h2 : a ∈ rejected
        · have h1 : a ∈ t :: rejected := List.mem_cons_of_mem t h2
          rw [if_pos h1, if_pos h2]
          exact ih hts
        · by_cases h1 : a ∈ t :: rejected
          · rw [if_pos h1, if_neg h2]
            have := ih hts
            omega
          · rw [if_neg h1, if_neg h2]
            have := ih hts
            omega

/-- The preferred-list walk never crashes when every supported type is
constructible, and its probe count is bounded by the potential: it either
accepts within `n + remCount`, or exhausts the list with the potential
accounting intact. -/
theorem preferredWalk_bound (env : Env) (frame : Frame) (cur : Scenario)
    (supported : List ScenarioType)
    (hconstr : ∀ t ∈ supported, (createScenario env t).isSome = true) :
    ∀ (l rejected : List ScenarioType) (n : Nat),
      (∃ sc m, preferredWalk env frame cur supported l rejected n =
          .accepted sc m ∧ m ≤ n + remCount supported rejected) ∨
      (∃ rej m, preferredWalk env frame cur supported l rejected n =
          .exhausted rej m ∧
        m + remCount supported rej ≤ n + remCount supported rejected) := by
  intro l
  induction l with
  | nil =>
      intro rejected n
      right
      exact ⟨rejected, n, rfl, le_refl _⟩
  | cons t rest ih =>
      intro rejected n
      by_cases hskip : t ∈ rejected ∨ t ∉ supported
      · simp only [preferredWalk]
        rw [if_pos hskip]
        exact ih rejected n
      · push_neg at hskip
        obtain ⟨hnr, hts⟩ := hskip
        simp only [preferredWalk]
        rw [if_neg (by push_neg; exact ⟨hnr, hts⟩)]
        by_cases heq : cur.scenario_type = t
        · rw [if_pos heq]
          left
          exact ⟨cur, n, rfl, Nat.le_add_right _ _⟩
        · rw [if_neg heq]
          rcases hc : createScenario env t with _ | sc
          · have hsome := hconstr t hts
            rw [hc] at hsome
            simp at hsome
          · simp only [hc]
            by_cases htr : env.is_transferable sc cur frame = true
            · rw [if_pos htr]
              left
              refine ⟨sc, n + 1, rfl, ?_⟩
              have := remCount_pos supported rejected t hts hnr
              omega
            · rw [if_neg htr]
              have hstep := remCount_cons_lt supported rejected t hts hnr
              rcases ih (t :: rejected) (n + 1) with
                ⟨sc', m, hm, hb⟩ | ⟨rej, m, hm, hb⟩
              · left
                exact ⟨sc', m, hm, by omega⟩
              · right
                exact ⟨rej, m, hm, by omega⟩

/-- The supported-set walk enjoys the same bound, provided its candidate
list is drawn from the supported set. -/
theorem supportedWalk_bound (env : Env) (frame : Frame) (cur : Scenario)
    (supported : List ScenarioType)
    (hconstr : ∀ t ∈ supported, (createScenario env t).isSome = true) :
    ∀ (l rejected : List ScenarioType) (n : Nat), (∀ t ∈ l, t ∈ supported) →
      (∃ sc m, supportedWalk env frame cur l rejected n =
          .accepted sc m ∧ m ≤ n + remCount supported rejected) ∨
      (∃ rej m, supportedWalk env frame cur l rejected n =
          .exhausted rej m ∧
        m + remCount supported rej ≤ n + remCount supported rejected) := by
  intro l
  induction l with
  | nil =>
      intro rejected n _
      right
      exact ⟨rejected, n, rfl, le_refl _⟩
  | cons t rest ih =>
      intro rejected n hsub
      have hts : t ∈ supported := hsub t (List.mem_cons_self t rest)
      have hsub' : ∀ x ∈ rest, x ∈ supported := fun x hx =>
        hsub x (List.mem_cons_of_mem t hx)
      by_cases hnr : t ∈ rejected
      · simp only [supportedWalk]
        rw [if_pos hnr]
        exact ih rejected n hsub'
      · simp only [supportedWalk]
        rw [if_neg hnr]
        by_cases hflag : flagSkip env t = true
        · rw [if_pos hflag]
          exact ih rejected n hsub'
        · rw [if_neg hflag]
          by_cases heq : cur.scenario_type = t
          · rw [if_pos heq]
            left
            exact ⟨cur, n, rfl, Nat.le_add_right _ _⟩
          · rw [if_neg heq]
            rcases hc : createScenario env t with _ | sc
            · have hsome := hconstr t hts
              rw [hc] at hsome
              simp at hsome
            · simp only [hc]
              by_cases htr : env.is_transferable sc cur frame = true
              · rw [if_pos htr]
                left
                refine ⟨sc, n + 1, rfl, ?_⟩
                have := remCount_pos supported rejected t hts hnr
                omega
              · rw [if_neg htr]
                have hstep := remCount_cons_lt supported rejected t hts hnr
                rcases ih (t :: rejected) (n + 1) hsub' with
                  ⟨sc', m, hm, hb⟩ | ⟨rej, m, hm, hb⟩
                · left
                  exact ⟨sc', m, hm, by omega⟩
                · right
                  exact ⟨rej, m, hm, by omega⟩

/-- Claim C8, amended: when every supported type is factory-constructible
and the active type is supported or equal to the default,
`ScenarioSelfVote` terminates with a decision and performs at most
N = |supported| transferability probes. -/
theorem selfVote_probe_bound (env : Env) (frame : Frame) (st : ManagerState)
    (cur : Scenario)
    (hne : frame.reference_line_info.isEmpty = false)
    (hcur : st.current_scenario = some cur)
    (hconstr : ∀ t ∈ st.supported_scenarios,
      (createScenario env t).isSome = true)
    (hmem : cur.scenario_type ∈ st.supported_scenarios ∨
      cur.scenario_type = st.default_scenario_type) :
    ∃ st' n, scenarioSelfVote env frame st = some (st', n) ∧
      n ≤ st.supported_scenarios.length := by
  simp only [scenarioSelfVote, hne, hcur, Bool.false_eq_true, if_false]
  by_cases hreuse : cur.scenario_type ≠ st.default_scenario_type ∧
      env.is_transferable cur cur frame = true
  · rw [if_pos hreuse]
    refine ⟨st, 1, rfl, ?_⟩
    have hm : cur.scenario_type ∈ st.supported_scenarios := by
      rcases hmem with h | h
      · exact h
      · exact absurd h hreuse.1
    calc 1 ≤ remCount st.supported_scenarios [] := by
          rw [remCount_nil]
          exact List.length_pos_of_mem hm
      _ ≤ st.supported_scenarios.length := by rw [remCount_nil]
  · rw [if_neg hreuse]
    have hbase : (if cur.scenario_type ≠ st.default_scenario_type then 1
          else 0) + remCount st.supported_scenarios [cur.scenario_type] ≤
        st.supported_scenarios.length := by
      by_cases hd : cur.scenario_type = st.default_scenario_type
      · rw [if_neg (by simpa using hd)]
        have := remCount_le st.supported_scenarios [cur.scenario_type]
        omega
      · rw [if_pos hd]
        have hm : cur.scenario_type ∈ st.supported_scenarios := by
          rcases hmem with h | h
          · exact h
          · exact absurd h hd
        have hlt := remCount_cons_lt st.supported_scenarios []
          cur.scenario_type hm (List.not_mem_nil _)
        rw [remCount_nil] at hlt
        omega
    rcases preferredWalk_bound env frame cur st.supported_scenarios hconstr
        (ScenarioType.LANE_FOLLOW :: buildPreferredScenarios
          frame.reference_line_info.headI.first_encountered_overlaps)
        [cur.scenario_type]
        (if cur.scenario_type ≠ st.default_scenario_type then 1 else 0) with
      ⟨sc, m, hm, hb⟩ | ⟨rej, m, hm, hb⟩
    · simp only [hm]
      exact ⟨_, m, rfl, by omega⟩
    · simp only [hm]
      rcases supportedWalk_bound env frame cur st.supported_scenarios hconstr
          st.supported_scenarios rej m (fun x hx => hx) with
        ⟨sc', m', hm', hb'⟩ | ⟨rej', m', hm', hb'⟩
      · simp only [hm']
        exact ⟨_, m', rfl, by omega⟩
      · simp only [hm']
        by_cases hd : cur.scenario_type ≠ st.default_scenario_type
        · rw [if_pos hd]
          exact ⟨_, m', rfl, by omega⟩
        · rw [if_neg hd]
          exact ⟨st, m', rfl, by omega⟩

/-- A frame with one default reference line and no overlaps. -/
def frameEmptyOv : Frame :=
  { reference_line_info := [default], traffic_light := none }

/-- A manager whose supported set holds only the non-constructible
STOP_SIGN_PROTECTED. -/
def stC8 : ManagerState :=
  { default_scenario_type := .LANE_FOLLOW
    supported_scenarios := [.STOP_SIGN_PROTECTED]
    current_scenario := some lfScenario
    scenario_info := infoA }

/-- Claim C8, counterexample: with STOP_SIGN_PROTECTED in the supported set
(a type the factory cannot construct), the supported-set walk dereferences
the null construction — the self-vote strategy crashes instead of
terminating with a decision, even though the oracle accepts everything. -/
theorem selfVote_unconstructible_crash :
    scenarioSelfVote envB frameEmptyOv stC8 = none := rfl

/-- A manager supporting only SIDE_PASS, active at the default. -/
def stC8b : ManagerState :=
  { default_scenario_type := .LANE_FOLLOW
    supported_scenarios := [.SIDE_PASS]
    current_scenario := some lfScenario
    scenario_info := infoA }

/-- Witness for `selfVote_probe_bound` on the one-type supported set. -/
theorem selfVote_probe_bound_witness :
    ∃ st' n, scenarioSelfVote envB frameEmptyOv stC8b = some (st', n) ∧
      n ≤ stC8b.supported_scenarios.length :=
  selfVote_probe_bound envB frameEmptyOv stC8b lfScenario rfl rfl
    (by decide) (Or.inr rfl)
